import Mathlib

/-!
Shallow embedding of `src/main.ts` of the ioBroker puppeteer adapter.

The adapter is a single class with three handlers (`onReady`, `onUnload`,
`onStateChange`) and three pure-ish helpers that read configuration states
(`gatherScreenshotOptions`, `gatherScreenshotClipOptions`,
`waitForConditions`).  External effects (the state store, the browser) are
modelled explicitly: the state store is a function from state ids to
optional states, and the browser collaborators are an oracle of
success/failure flags.  Each handler is embedded as a function producing an
observable trace (pages opened/closed, navigation attempts, state writes,
error logs, configuration reads).
-/

namespace PuppeteerAdapter

/-- A JavaScript value as stored in an ioBroker state's `val` field:
string, number, boolean or null.  Numbers are modelled as integers. -/
inductive Value where
  | str (s : String)
  | num (n : Int)
  | bool (b : Bool)
  | null
deriving DecidableEq, Repr

/-- JavaScript truthiness of a stored value: empty string, zero, `false`
and `null` are falsy, everything else is truthy.  This is the coercion the
source applies in `state.val && ...`, `!!fullPageState.val`,
`selector && ...` and `renderTimeMs && ...`. -/
def Value.truthy : Value → Bool
  | .str s => s != ""
  | .num n => n != 0
  | .bool b => b
  | .null => false

/-- An ioBroker state object as seen by the adapter: a value and an
acknowledgement flag. -/
structure IobState where
  val : Value
  ack : Bool
deriving DecidableEq, Repr

/-- The external key/value store: `getStateAsync id` yields the state for
`id` or nothing (`null`/`undefined` in the source). -/
abbrev Config := String → Option IobState

/-- The check `clipAttributeState && typeof clipAttributeState.val === 'number'` in the source: yields the numeric value of a
state when the state exists and its value is of numeric type. -/
def numVal : Option IobState → Option Int
  | some st =>
    match st.val with
    | Value.num n => some n
    | _ => none
  | none => none

/-- Puppeteer's `ScreenshotClip`: the clip region passed to
`page.screenshot`. -/
structure ScreenshotClip where
  x : Int
  y : Int
  height : Int
  width : Int
deriving DecidableEq, Repr

/-- Puppeteer's `ScreenshotOptions` as the adapter populates it: `path` is
set only from a truthy `filename` value, `fullPage` is set only when the
`fullPage` state exists, `clip` is set only when a complete clip region was
resolved. -/
structure ScreenshotOptions where
  path : Option Value := none
  fullPage : Option Bool := none
  clip : Option ScreenshotClip := none
deriving DecidableEq, Repr

/-- Model of `gatherScreenshotClipOptions`: iterates over
`clipLeft ↦ x, clipTop ↦ y, clipHeight ↦ height, clipWidth ↦ width` in
source order; on the first attribute that is missing or non-numeric it
returns nothing (the partial region is discarded).  The second component
records which state ids were read, in order. -/
def gatherScreenshotClipOptions (cfg : Config) : Option ScreenshotClip × List String :=
  match numVal (cfg "clipLeft") with
  | none => (none, ["clipLeft"])
  | some x =>
    match numVal (cfg "clipTop") with
    | none => (none, ["clipLeft", "clipTop"])
    | some y =>
      match numVal (cfg "clipHeight") with
      | none => (none, ["clipLeft", "clipTop", "clipHeight"])
      | some h =>
        match numVal (cfg "clipWidth") with
        | none => (none, ["clipLeft", "clipTop", "clipHeight", "clipWidth"])
        | some w =>
          (some ⟨x, y, h, w⟩, ["clipLeft", "clipTop", "clipHeight", "clipWidth"])

/-- Model of `gatherScreenshotOptions`: reads `filename` (sets `path` when truthy),
reads `fullPage` (sets the flag to the value's truthiness when the state
exists), and resolves the clip region only when `!options.fullPage`, i.e.
when the flag is unset or false.  The second component records the state
ids read, in order. -/
def gatherScreenshotOptions (cfg : Config) : ScreenshotOptions × List String :=
  let path : Option Value :=
    match cfg "filename" with
    | some st => if st.val.truthy then some st.val else none
    | none => none
  let fullPage : Option Bool :=
    match cfg "fullPage" with
    | some st => some st.val.truthy
    | none => none
  if fullPage = some true then
    ({ path := path, fullPage := fullPage, clip := none }, ["filename", "fullPage"])
  else
    ({ path := path, fullPage := fullPage, clip := (gatherScreenshotClipOptions cfg).1 },
      ["filename", "fullPage"] ++ (gatherScreenshotClipOptions cfg).2)

/-- The wait performed by `waitForConditions` before the capture:
`page.waitForSelector`, `page.waitForTimeout`, or nothing. -/
inductive WaitAction where
  | forSelector (s : String)
  | forTimeout (ms : Int)
  | noWait
deriving DecidableEq, Repr

/-- Model of `waitForConditions`: reads `waitForSelector`; when its value is truthy
and of string type, waits for that selector and returns.  Otherwise reads
`renderTime`; when its value is truthy and of numeric type, waits that many
milliseconds.  Otherwise no wait.  The second component records the state
ids read, in order. -/
def waitForConditions (cfg : Config) : WaitAction × List String :=
  match (cfg "waitForSelector").map IobState.val with
  | some (Value.str s) =>
    if s != "" then (WaitAction.forSelector s, ["waitForSelector"])
    else
      match (cfg "renderTime").map IobState.val with
      | some (Value.num n) =>
        if n != 0 then (WaitAction.forTimeout n, ["waitForSelector", "renderTime"])
        else (WaitAction.noWait, ["waitForSelector", "renderTime"])
      | _ => (WaitAction.noWait, ["waitForSelector", "renderTime"])
  | _ =>
    match (cfg "renderTime").map IobState.val with
    | some (Value.num n) =>
      if n != 0 then (WaitAction.forTimeout n, ["waitForSelector", "renderTime"])
      else (WaitAction.noWait, ["waitForSelector", "renderTime"])
    | _ => (WaitAction.noWait, ["waitForSelector", "renderTime"])

/-- Success/failure oracle for the external browser collaborators invoked
inside the `try` block of `onStateChange`: `page.goto`, the wait primitive
(`waitForSelector` / `waitForTimeout`), `page.screenshot` and
`setStateAsync`.  A `false` flag means the corresponding awaited call
throws. -/
structure Effects where
  navOk : Bool
  waitOk : Bool
  shotOk : Bool
  ackOk : Bool
deriving DecidableEq, Repr

/-- Observable trace of one `onStateChange` invocation: collaborator call
counts, the screenshot invocations with their options, the state writes
(`setStateAsync id val ack`), the number of `log.error` reports, the state
ids read from the configuration store, and the adapter's `browser` field
after the handler returns. -/
structure Trace where
  pagesOpened : Nat := 0
  pagesClosed : Nat := 0
  navAttempts : Nat := 0
  shots : List ScreenshotOptions := []
  stateWrites : List (String × Value × Bool) := []
  errorLogs : Nat := 0
  configReads : List String := []
  browserAfter : Option Nat := none
deriving DecidableEq, Repr

/-- Model of `onStateChange id state`: returns immediately when `this.browser` is
unset; otherwise acts only when `state && state.val && !state.ack`.  It
then gathers the screenshot options, aborts with `log.error` when no path
was configured, and otherwise runs
`newPage → goto → waitForConditions → screenshot → setStateAsync → close`
inside a `try` whose `catch` only logs the error — in particular the
`catch` does not close the page.  The browser handle is modelled as
`Option Nat`, the store as `cfg`, the collaborators as `eff`. -/
def onStateChange (browser : Option Nat) (cfg : Config) (eff : Effects)
    (id : String) (st : Option IobState) : Trace :=
  match browser with
  | none => { browserAfter := none }
  | some b =>
    match st with
    | none => { browserAfter := some b }
    | some s =>
      if s.val.truthy && !s.ack then
        let options := (gatherScreenshotOptions cfg).1
        let reads1 := (gatherScreenshotOptions cfg).2
        if options.path = none then
          { errorLogs := 1, configReads := reads1, browserAfter := some b }
        else if !eff.navOk then
          { pagesOpened := 1, navAttempts := 1, errorLogs := 1,
            configReads := reads1, browserAfter := some b }
        else
          let wact := (waitForConditions cfg).1
          let reads2 := (waitForConditions cfg).2
          if wact ≠ WaitAction.noWait ∧ eff.waitOk = false then
            { pagesOpened := 1, navAttempts := 1, errorLogs := 1,
              configReads := reads1 ++ reads2, browserAfter := some b }
          else if !eff.shotOk then
            { pagesOpened := 1, navAttempts := 1, shots := [options], errorLogs := 1,
              configReads := reads1 ++ reads2, browserAfter := some b }
          else if !eff.ackOk then
            { pagesOpened := 1, navAttempts := 1, shots := [options], errorLogs := 1,
              configReads := reads1 ++ reads2, browserAfter := some b }
          else
            { pagesOpened := 1, pagesClosed := 1, navAttempts := 1, shots := [options],
              stateWrites := [(id, s.val, true)],
              configReads := reads1 ++ reads2, browserAfter := some b }
      else { browserAfter := some b }

/-- Model of `onReady`: subscribes and assigns the freshly launched browser to
`this.browser`. -/
def onReady (handle : Nat) : Option Nat :=
  some handle

/-- Model of `onUnload callback`: inside a `try`, closes the browser (when one
exists) and clears the handle, then calls `callback`; the `catch` also
calls `callback`.  The result is `Except.ok (browserAfter, callbackCalls)`;
an `Except.error` would mean an exception escaped past the handler.
`closeOk = false` makes `browser.close()` throw. -/
def onUnload (browser : Option Nat) (closeOk : Bool) : Except String (Option Nat × Nat) :=
  let tryBody : Except String (Option Nat) :=
    match browser with
    | some _ => if closeOk then Except.ok none else Except.error "close failed"
    | none => Except.ok browser
  match tryBody with
  | Except.ok br => Except.ok (br, 1)
  | Except.error _ => Except.ok (browser, 1)

/-! Concrete configuration snapshots used as witnesses. -/

/-- Snapshot with `fullPage` truthy and all four clip keys numeric. -/
def cfgFull : Config := fun k =>
  if k = "filename" then some ⟨Value.str "/tmp/out.png", true⟩
  else if k = "fullPage" then some ⟨Value.bool true, true⟩
  else if k = "clipLeft" then some ⟨Value.num 10, true⟩
  else if k = "clipTop" then some ⟨Value.num 20, true⟩
  else if k = "clipHeight" then some ⟨Value.num 30, true⟩
  else if k = "clipWidth" then some ⟨Value.num 40, true⟩
  else none

/-- Snapshot where only three clip keys are numeric: `clipWidth` is absent
and `clipHeight` holds a string. -/
def cfgPartialClip : Config := fun k =>
  if k = "filename" then some ⟨Value.str "/tmp/out.png", true⟩
  else if k = "clipLeft" then some ⟨Value.num 10, true⟩
  else if k = "clipTop" then some ⟨Value.num 20, true⟩
  else if k = "clipHeight" then some ⟨Value.str "30", true⟩
  else none

/-- Snapshot with both a wait selector and a render time configured. -/
def cfgSelector : Config := fun k =>
  if k = "waitForSelector" then some ⟨Value.str "#chart", false⟩
  else if k = "renderTime" then some ⟨Value.num 500, true⟩
  else none

/-- Snapshot with no selector and `renderTime` equal to `0`. -/
def cfgRenderZero : Config := fun k =>
  if k = "renderTime" then some ⟨Value.num 0, true⟩ else none

/-- Snapshot with no selector and `renderTime` equal to `500`. -/
def cfgRender : Config := fun k =>
  if k = "renderTime" then some ⟨Value.num 500, true⟩ else none

/-- Snapshot with only `filename` configured. -/
def cfgMinimal : Config := fun k =>
  if k = "filename" then some ⟨Value.str "/tmp/out.png", true⟩ else none

/-- Empty snapshot: every state is absent. -/
def cfgEmpty : Config := fun _ => none

/-! Helper lemmas. -/

/-- A clip region is only produced when all four clip states hold numeric
values: if any of the four is missing or non-numeric, the resolver yields
none. -/
theorem gatherScreenshotClipOptions_eq_none (cfg : Config)
    (h : ¬((numVal (cfg "clipLeft")).isSome = true ∧ (numVal (cfg "clipTop")).isSome = true ∧
          (numVal (cfg "clipHeight")).isSome = true ∧ (numVal (cfg "clipWidth")).isSome = true)) :
    (gatherScreenshotClipOptions cfg).1 = none := by
  unfold gatherScreenshotClipOptions
  cases hL : numVal (cfg "clipLeft") <;> cases hT : numVal (cfg "clipTop") <;>
    cases hH : numVal (cfg "clipHeight") <;> cases hW : numVal (cfg "clipWidth") <;>
    simp_all

/-- The resolved path is none when the `filename` state is absent or its
value is falsy. -/
theorem gatherScreenshotOptions_path_none (cfg : Config)
    (hfile : cfg "filename" = none ∨
      ∃ fs, cfg "filename" = some fs ∧ fs.val.truthy = false) :
    (gatherScreenshotOptions cfg).1.path = none := by
  rcases hfile with h | ⟨fs, h, hfs⟩
  · simp only [gatherScreenshotOptions, h]
    split <;> rfl
  · simp only [gatherScreenshotOptions, h, hfs]
    split <;> rfl

/-! Claim theorems. -/

/-- C2: for every configuration snapshot in which the `fullPage` state is
truthy, the options produced by `gatherScreenshotOptions` contain no clip
region — regardless of the four clip keys — and the clip keys are not even
read: the read trace is exactly `["filename", "fullPage"]`, which contains
none of them. -/
theorem claim2_fullPage_skips_clip (cfg : Config) (fs : IobState)
    (hfull : cfg "fullPage" = some fs) (htruthy : fs.val.truthy = true) :
    (gatherScreenshotOptions cfg).1.clip = none ∧
    (gatherScreenshotOptions cfg).2 = ["filename", "fullPage"] ∧
    "clipLeft" ∉ (gatherScreenshotOptions cfg).2 ∧
    "clipTop" ∉ (gatherScreenshotOptions cfg).2 ∧
    "clipHeight" ∉ (gatherScreenshotOptions cfg).2 ∧
    "clipWidth" ∉ (gatherScreenshotOptions cfg).2 := by
  simp [gatherScreenshotOptions, hfull, htruthy]

/-- Witness for C2: the snapshot `cfgFull` has `fullPage` truthy and all
four clip keys numeric, yet no clip region is produced and no clip key is
read. -/
theorem claim2_fullPage_skips_clip_witness :
    cfgFull "fullPage" = some ⟨Value.bool true, true⟩ ∧
    (IobState.mk (Value.bool true) true).val.truthy = true ∧
    ((gatherScreenshotOptions cfgFull).1.clip = none ∧
     (gatherScreenshotOptions cfgFull).2 = ["filename", "fullPage"] ∧
     "clipLeft" ∉ (gatherScreenshotOptions cfgFull).2 ∧
     "clipTop" ∉ (gatherScreenshotOptions cfgFull).2 ∧
     "clipHeight" ∉ (gatherScreenshotOptions cfgFull).2 ∧
     "clipWidth" ∉ (gatherScreenshotOptions cfgFull).2) :=
  ⟨rfl, rfl, claim2_fullPage_skips_clip cfgFull ⟨Value.bool true, true⟩ rfl rfl⟩

/-- C3: whenever not all four clip keys are present with numeric values,
`gatherScreenshotClipOptions` yields no clip region and the resulting
options carry no clip — the partial configuration is silently discarded. -/
theorem claim3_partial_clip_discarded (cfg : Config)
    (h : ¬((numVal (cfg "clipLeft")).isSome = true ∧ (numVal (cfg "clipTop")).isSome = true ∧
          (numVal (cfg "clipHeight")).isSome = true ∧ (numVal (cfg "clipWidth")).isSome = true)) :
    (gatherScreenshotClipOptions cfg).1 = none ∧
    (gatherScreenshotOptions cfg).1.clip = none := by
  have hc := gatherScreenshotClipOptions_eq_none cfg h
  refine ⟨hc, ?_⟩
  simp only [gatherScreenshotOptions]
  split
  · rfl
  · simpa using hc

/-- Witness for C3: in `cfgPartialClip` only `clipLeft` and `clipTop` are
numeric (`clipHeight` is a string, `clipWidth` is absent), and no clip
region results. -/
theorem claim3_partial_clip_discarded_witness :
    ¬((numVal (cfgPartialClip "clipLeft")).isSome = true ∧
      (numVal (cfgPartialClip "clipTop")).isSome = true ∧
      (numVal (cfgPartialClip "clipHeight")).isSome = true ∧
      (numVal (cfgPartialClip "clipWidth")).isSome = true) ∧
    ((gatherScreenshotClipOptions cfgPartialClip).1 = none ∧
     (gatherScreenshotOptions cfgPartialClip).1.clip = none) :=
  ⟨by decide, claim3_partial_clip_discarded cfgPartialClip (by decide)⟩

/-- C4: when the `waitForSelector` state holds a non-empty string, the wait
performed is `forSelector` with that string, and the `renderTime` state is
not read. -/
theorem claim4_selector_precedence (cfg : Config) (ws : IobState) (s : String)
    (hsel : cfg "waitForSelector" = some ws) (hval : ws.val = Value.str s)
    (hne : s ≠ "") :
    (waitForConditions cfg).1 = WaitAction.forSelector s ∧
    "renderTime" ∉ (waitForConditions cfg).2 := by
  simp [waitForConditions, hsel, hval, hne]

/-- Witness for C4: `cfgSelector` configures both `waitForSelector` and
`renderTime`; the selector wins and `renderTime` is not read. -/
theorem claim4_selector_precedence_witness :
    cfgSelector "waitForSelector" = some ⟨Value.str "#chart", false⟩ ∧
    (IobState.mk (Value.str "#chart") false).val = Value.str "#chart" ∧
    "#chart" ≠ "" ∧
    ((waitForConditions cfgSelector).1 = WaitAction.forSelector "#chart" ∧
     "renderTime" ∉ (waitForConditions cfgSelector).2) :=
  ⟨rfl, rfl, by decide,
    claim4_selector_precedence cfgSelector ⟨Value.str "#chart", false⟩ "#chart" rfl rfl
      (by decide)⟩

/-- Counterexample to C5 as stated: with `waitForSelector` absent and
`renderTime` present with numeric value `0`, the code performs no wait at
all rather than a fixed delay of `0` ms, because the source guards the
delay with the truthiness check `renderTimeMs && ...` and `0` is falsy. -/
theorem claim5_render_time_zero_counterexample :
    cfgRenderZero "waitForSelector" = none ∧
    cfgRenderZero "renderTime" = some ⟨Value.num 0, true⟩ ∧
    (waitForConditions cfgRenderZero).1 ≠ WaitAction.forTimeout 0 ∧
    (waitForConditions cfgRenderZero).1 = WaitAction.noWait :=
  ⟨rfl, rfl, by decide, rfl⟩

/-- C5 as amended: when `waitForSelector` is absent or empty and
`renderTime` holds a nonzero numeric value, the wait performed is
`forTimeout` of exactly that many milliseconds; a value of `0` instead
results in no wait. -/
theorem claim5_fixed_delay_when_no_selector (cfg : Config) (rt : IobState) (n : Int)
    (hsel : cfg "waitForSelector" = none ∨
      ∃ ws, cfg "waitForSelector" = some ws ∧ ws.val = Value.str "")
    (hrt : cfg "renderTime" = some rt) (hn : rt.val = Value.num n) (hnz : n ≠ 0) :
    (waitForConditions cfg).1 = WaitAction.forTimeout n := by
  rcases hsel with h | ⟨ws, h, hws⟩
  · simp [waitForConditions, h, hrt, hn, hnz]
  · simp [waitForConditions, h, hws, hrt, hn, hnz]

/-- Witness for the amended C5: `cfgRender` has no selector and
`renderTime` equal to `500`, and the wait performed is a 500 ms delay. -/
theorem claim5_fixed_delay_when_no_selector_witness :
    (cfgRender "waitForSelector" = none ∨
      ∃ ws, cfgRender "waitForSelector" = some ws ∧ ws.val = Value.str "") ∧
    cfgRender "renderTime" = some ⟨Value.num 500, true⟩ ∧
    (IobState.mk (Value.num 500) true).val = Value.num 500 ∧
    (500 : Int) ≠ 0 ∧
    (waitForConditions cfgRender).1 = WaitAction.forTimeout 500 :=
  ⟨Or.inl rfl, rfl, rfl, by decide,
    claim5_fixed_delay_when_no_selector cfgRender ⟨Value.num 500, true⟩ 500 (Or.inl rfl)
      rfl rfl (by decide)⟩

/-- C1, evaluated at the failing input: with `filename` configured and an
actionable trigger, a navigation failure (`goto` throws) lands in the
`catch`, which only logs — the opened page is never closed (zero `close`
calls, not one) and the trigger is not acknowledged.  The claim that the
page is released on every failure path does not hold on the code. -/
theorem claim1_nav_failure_page_not_closed :
    (onStateChange (some 0) cfgMinimal ⟨false, true, true, true⟩ "url"
      (some ⟨Value.str "https://example.com", false⟩)).pagesOpened = 1 ∧
    (onStateChange (some 0) cfgMinimal ⟨false, true, true, true⟩ "url"
      (some ⟨Value.str "https://example.com", false⟩)).pagesClosed = 0 ∧
    (onStateChange (some 0) cfgMinimal ⟨false, true, true, true⟩ "url"
      (some ⟨Value.str "https://example.com", false⟩)).stateWrites = [] ∧
    (onStateChange (some 0) cfgMinimal ⟨false, true, true, true⟩ "url"
      (some ⟨Value.str "https://example.com", false⟩)).errorLogs = 1 :=
  ⟨rfl, rfl, rfl, rfl⟩

/-- C6: for every actionable trigger whose snapshot has `filename` absent
or with a falsy value, the handler reports a configuration error and
aborts before opening a page: no page is created and no navigation is
attempted. -/
theorem claim6_missing_filename_aborts (b : Nat) (cfg : Config) (eff : Effects)
    (id : String) (s : IobState)
    (htrig : s.val.truthy = true) (hack : s.ack = false)
    (hfile : cfg "filename" = none ∨
      ∃ fs, cfg "filename" = some fs ∧ fs.val.truthy = false) :
    (onStateChange (some b) cfg eff id (some s)).errorLogs = 1 ∧
    (onStateChange (some b) cfg eff id (some s)).pagesOpened = 0 ∧
    (onStateChange (some b) cfg eff id (some s)).navAttempts = 0 := by
  have hp := gatherScreenshotOptions_path_none cfg hfile
  simp [onStateChange, htrig, hack, hp]

/-- Witness for C6: the empty snapshot with an actionable trigger aborts
with one error, zero pages and zero navigations. -/
theorem claim6_missing_filename_aborts_witness :
    (IobState.mk (Value.str "https://example.com") false).val.truthy = true ∧
    (IobState.mk (Value.str "https://example.com") false).ack = false ∧
    (cfgEmpty "filename" = none ∨
      ∃ fs, cfgEmpty "filename" = some fs ∧ fs.val.truthy = false) ∧
    ((onStateChange (some 0) cfgEmpty ⟨true, true, true, true⟩ "url"
        (some ⟨Value.str "https://example.com", false⟩)).errorLogs = 1 ∧
     (onStateChange (some 0) cfgEmpty ⟨true, true, true, true⟩ "url"
        (some ⟨Value.str "https://example.com", false⟩)).pagesOpened = 0 ∧
     (onStateChange (some 0) cfgEmpty ⟨true, true, true, true⟩ "url"
        (some ⟨Value.str "https://example.com", false⟩)).navAttempts = 0) :=
  ⟨rfl, rfl, Or.inl rfl,
    claim6_missing_filename_aborts 0 cfgEmpty ⟨true, true, true, true⟩ "url"
      ⟨Value.str "https://example.com", false⟩ rfl rfl (Or.inl rfl)⟩

/-- C7: for every trigger that completes successfully (navigation, wait,
capture and acknowledgement all succeed), the triggering key is written
back exactly once, with its original value and the acknowledged flag set to
true — this write is the only state write the handler performs. -/
theorem claim7_success_single_ack (b : Nat) (cfg : Config) (eff : Effects)
    (id : String) (s : IobState)
    (htrig : s.val.truthy = true) (hack : s.ack = false)
    (hpath : (gatherScreenshotOptions cfg).1.path ≠ none)
    (hnav : eff.navOk = true) (hwait : eff.waitOk = true)
    (hshot : eff.shotOk = true) (hsack : eff.ackOk = true) :
    (onStateChange (some b) cfg eff id (some s)).stateWrites = [(id, s.val, true)] := by
  simp [onStateChange, htrig, hack, hpath, hnav, hwait, hshot, hsack]

/-- Witness for C7: a successful capture with only `filename` configured
writes back `("url", value, true)` exactly once. -/
theorem claim7_success_single_ack_witness :
    (IobState.mk (Value.str "https://example.com") false).val.truthy = true ∧
    (IobState.mk (Value.str "https://example.com") false).ack = false ∧
    (gatherScreenshotOptions cfgMinimal).1.path ≠ none ∧
    (onStateChange (some 0) cfgMinimal ⟨true, true, true, true⟩ "url"
        (some ⟨Value.str "https://example.com", false⟩)).stateWrites
      = [("url", Value.str "https://example.com", true)] :=
  ⟨rfl, rfl, by decide,
    claim7_success_single_ack 0 cfgMinimal ⟨true, true, true, true⟩ "url"
      ⟨Value.str "https://example.com", false⟩ rfl rfl (by decide) rfl rfl rfl rfl⟩

/-- C8: when the browser has been torn down, or the notification is absent,
or its value is falsy, or it is already acknowledged, the handler is a
silent no-op: the whole trace is the empty trace (no reads, no pages, no
navigation, no writes, no error logs) with the browser unchanged. -/
theorem claim8_non_trigger_noop (browser : Option Nat) (cfg : Config) (eff : Effects)
    (id : String) (st : Option IobState)
    (h : browser = none ∨ st = none ∨ (∃ s, st = some s ∧ s.val.truthy = false) ∨
         (∃ s, st = some s ∧ s.ack = true)) :
    onStateChange browser cfg eff id st = { browserAfter := browser } := by
  rcases h with h | h | ⟨s, h, hs⟩ | ⟨s, h, hs⟩
  · subst h; rfl
  · subst h; cases browser <;> rfl
  · subst h
    cases browser with
    | none => rfl
    | some b => simp [onStateChange, hs]
  · subst h
    cases browser with
    | none => rfl
    | some b => simp [onStateChange, hs]

/-- Witness for C8: an already-acknowledged trigger with a live browser and
a fully populated snapshot produces the empty trace. -/
theorem claim8_non_trigger_noop_witness :
    ((some 0 : Option Nat) = none ∨ (some ⟨Value.str "https://example.com", true⟩ :
        Option IobState) = none ∨
      (∃ s, (some ⟨Value.str "https://example.com", true⟩ : Option IobState) = some s ∧
        s.val.truthy = false) ∨
      (∃ s, (some ⟨Value.str "https://example.com", true⟩ : Option IobState) = some s ∧
        s.ack = true)) ∧
    onStateChange (some 0) cfgFull ⟨true, true, true, true⟩ "url"
        (some ⟨Value.str "https://example.com", true⟩)
      = { browserAfter := some 0 } :=
  ⟨Or.inr (Or.inr (Or.inr ⟨⟨Value.str "https://example.com", true⟩, rfl, rfl⟩)),
    claim8_non_trigger_noop (some 0) cfgFull ⟨true, true, true, true⟩ "url"
      (some ⟨Value.str "https://example.com", true⟩)
      (Or.inr (Or.inr (Or.inr ⟨⟨Value.str "https://example.com", true⟩, rfl, rfl⟩)))⟩

/-- C9: teardown always invokes the completion callback exactly once and
never lets an exception escape, whether or not a browser session exists and
whether or not closing it throws: the result is always `Except.ok` with
callback count `1`. -/
theorem claim9_unload_always_signals (browser : Option Nat) (closeOk : Bool) :
    ∃ br, onUnload browser closeOk = Except.ok (br, 1) := by
  cases browser with
  | none => exact ⟨none, rfl⟩
  | some b =>
    cases closeOk with
    | true => exact ⟨none, rfl⟩
    | false => exact ⟨some b, rfl⟩

/-- Handling a state change never assigns the `browser` field: every
branch of `onStateChange` — no-op, configuration abort, any failure, or
success — leaves it as it was. -/
theorem onStateChange_browserAfter_eq (browser : Option Nat) (cfg : Config)
    (eff : Effects) (id : String) (st : Option IobState) :
    (onStateChange browser cfg eff id st).browserAfter = browser := by
  cases browser with
  | none => rfl
  | some b =>
    cases st with
    | none => rfl
    | some s =>
      simp only [onStateChange]
      split_ifs <;> rfl

/-- C10: `onStateChange` never modifies the shared browser handle — after
any execution (no-op, configuration abort, navigation/wait/capture/ack
failure, or success) the `browser` field holds the same value as before, so
a failed capture leaves the session available; `onReady` is what sets the
handle and `onUnload` (on a successful close) is what clears it. -/
theorem claim10_browser_handle_invariant (browser : Option Nat) (cfg : Config)
    (eff : Effects) (id : String) (st : Option IobState) (h : Nat) :
    (onStateChange browser cfg eff id st).browserAfter = browser ∧
    onReady h = some h ∧
    onUnload (some h) true = Except.ok (none, 1) :=
  ⟨onStateChange_browserAfter_eq browser cfg eff id st, rfl, rfl⟩

end PuppeteerAdapter
